import Mathlib

/-!
Verification development for the serial-plotter application (`src/main.py`).

The embedding models, from the source:
* the byte-level line pipeline of the inner read loop
  (`readline().decode('utf-8').strip()`, `float(line)`, the rolling
  `PLOT_DATA` buffer trimmed to `MAX_POINTS`) — `utf8Decode`, `pyStrip`,
  `pyFloat`, `record`, `processRawLine`;
* the worker thread `read_from_arduino` together with the GUI callbacks
  `start_reading_data` and `stop_reading_data`, as a small-step transition
  relation `Step` over a global state `GState`, where a `stopCall` step may
  interleave at any point (the GUI thread).
-/

namespace SerialPlotter

/-! ### Byte-level text model

`bytes.decode('utf-8')` in Python performs strict UTF-8 decoding; we model a
raw line as a list of byte values and a decoded string as its list of Unicode
code points. -/

/-- A UTF-8 continuation byte `0x80..0xBF`. -/
def utf8Cont (b : ℕ) : Bool := 0x80 ≤ b && b ≤ 0xBF

/-- Valid second byte of a three-byte sequence (excludes overlong encodings
and surrogates, as strict UTF-8 does). -/
def utf8Second3 (b0 b1 : ℕ) : Bool :=
  if b0 = 0xE0 then 0xA0 ≤ b1 && b1 ≤ 0xBF
  else if b0 = 0xED then 0x80 ≤ b1 && b1 ≤ 0x9F
  else utf8Cont b1

/-- Valid second byte of a four-byte sequence. -/
def utf8Second4 (b0 b1 : ℕ) : Bool :=
  if b0 = 0xF0 then 0x90 ≤ b1 && b1 ≤ 0xBF
  else if b0 = 0xF4 then 0x80 ≤ b1 && b1 ≤ 0x8F
  else utf8Cont b1

/-- Strict UTF-8 decoding of a byte sequence into code points; `none` models
`UnicodeDecodeError` raised by `.decode('utf-8')` (main.py line 104). -/
def utf8Decode : List ℕ → Option (List ℕ)
  | [] => some []
  | b0 :: r0 =>
    if b0 ≤ 0x7F then
      (utf8Decode r0).map (fun t => b0 :: t)
    else if 0xC2 ≤ b0 && b0 ≤ 0xDF then
      match r0 with
      | b1 :: r1 =>
        if utf8Cont b1 then
          (utf8Decode r1).map (fun t => ((b0 - 0xC0) * 0x40 + (b1 - 0x80)) :: t)
        else none
      | [] => none
    else if 0xE0 ≤ b0 && b0 ≤ 0xEF then
      match r0 with
      | b1 :: b2 :: r2 =>
        if utf8Second3 b0 b1 && utf8Cont b2 then
          (utf8Decode r2).map
            (fun t => ((b0 - 0xE0) * 0x1000 + (b1 - 0x80) * 0x40 + (b2 - 0x80)) :: t)
        else none
      | _ => none
    else if 0xF0 ≤ b0 && b0 ≤ 0xF4 then
      match r0 with
      | b1 :: b2 :: b3 :: r3 =>
        if utf8Second4 b0 b1 && utf8Cont b2 && utf8Cont b3 then
          (utf8Decode r3).map
            (fun t =>
              ((b0 - 0xF0) * 0x40000 + (b1 - 0x80) * 0x1000 +
                (b2 - 0x80) * 0x40 + (b3 - 0x80)) :: t)
        else none
      | _ => none
    else none

/-- Code points stripped by Python `str.strip()` (`str.isspace()` characters). -/
def pyIsSpace (b : ℕ) : Bool :=
  b = 0x20 || b = 0x09 || b = 0x0A || b = 0x0B || b = 0x0C || b = 0x0D ||
  (0x1C ≤ b && b ≤ 0x1F) || b = 0x85 || b = 0xA0 || b = 0x1680 ||
  (0x2000 ≤ b && b ≤ 0x200A) || b = 0x2028 || b = 0x2029 || b = 0x202F ||
  b = 0x205F || b = 0x3000

/-- Python `str.strip()`: drop whitespace from both ends. -/
def pyStrip (l : List ℕ) : List ℕ :=
  ((l.dropWhile pyIsSpace).reverse.dropWhile pyIsSpace).reverse

/-- An ASCII decimal digit. -/
def isDigitB (b : ℕ) : Bool := 0x30 ≤ b && b ≤ 0x39

/-- Value of a digit string. -/
def digitsVal (l : List ℕ) : ℕ := l.foldl (fun acc b => acc * 10 + (b - 0x30)) 0

/-- Split a list at the first code point satisfying `d`; the second component
is `none` when no such code point occurs. -/
def splitOnFirst (d : ℕ → Bool) : List ℕ → List ℕ × Option (List ℕ)
  | [] => ([], none)
  | b :: r =>
    if d b then ([], some r)
    else
      let p := splitOnFirst d r
      (b :: p.1, p.2)

/-- Consume an optional leading sign. -/
def parseSign : List ℕ → ℤ × List ℕ
  | 0x2B :: r => (1, r)
  | 0x2D :: r => (-1, r)
  | l => (1, l)

/-- Unsigned decimal mantissa: digits with at most one point, at least one
digit overall (`"1."`, `".5"`, `"12"` accepted; `""`, `"."` rejected). -/
def parseUnsignedDec (l : List ℕ) : Option ℚ :=
  let p := splitOnFirst (fun b => b = 0x2E) l
  match p.2 with
  | none => if l ≠ [] && l.all isDigitB then some ((digitsVal l : ℕ) : ℚ) else none
  | some fp =>
    if (p.1 ≠ [] || fp ≠ []) && p.1.all isDigitB && fp.all isDigitB then
      some (((digitsVal p.1 : ℕ) : ℚ) + ((digitsVal fp : ℕ) : ℚ) / (10 : ℚ) ^ fp.length)
    else none

/-- Python `float(s)` on an already-stripped string, over code points:
optional sign, decimal mantissa, optional `e`/`E` exponent.  `none` models
`ValueError` (main.py line 107/124).  The special spellings `inf`/`nan` and
underscore digit separators are not modelled; no line in scope uses them. -/
def pyFloat (l : List ℕ) : Option ℚ :=
  let s := parseSign l
  let m := splitOnFirst (fun b => b = 0x65 || b = 0x45) s.2
  match m.2 with
  | none => (parseUnsignedDec m.1).map (fun q => (s.1 : ℚ) * q)
  | some ep =>
    let es := parseSign ep
    if es.2 ≠ [] && es.2.all isDigitB then
      (parseUnsignedDec m.1).map
        (fun q => (s.1 : ℚ) * q * (10 : ℚ) ^ (es.1 * (digitsVal es.2 : ℤ)))
    else none

/-! ### Rolling buffer (`PLOT_DATA`, main.py lines 113–116) -/

/-- One `record` operation on a channel buffer: `PLOT_DATA.append(value)`
followed by `if len(PLOT_DATA) > MAX_POINTS: PLOT_DATA.pop(0)`. -/
def record (maxPoints : ℕ) (buf : List α) (v : α) : List α :=
  let b := buf ++ [v]
  if maxPoints < b.length then b.drop 1 else b

/-! ### Inner-loop line processing (main.py lines 102–125) -/

/-- Data-facing state touched by one inner-loop iteration: `LATEST_VALUE`,
the gauge widgets, `PLOT_DATA` and the `line_series` plot value. -/
structure DataState where
  latestValue : ℚ
  gaugeValue : ℚ
  gaugeLabel : ℚ
  plotData : List ℚ
  lineSeries : List ℕ × List ℚ
deriving DecidableEq, Repr

/-- Initial data state (`LATEST_VALUE = 0`, `PLOT_DATA = []`, gauge 0,
empty series). -/
def initDataState : DataState :=
  { latestValue := 0, gaugeValue := 0, gaugeLabel := 0,
    plotData := [], lineSeries := ([], []) }

/-- Log entries emitted by the code paths in scope. -/
inductive LogEntry
  | invalidData (line : List ℕ)
  | serialConnError (retriesLeft : ℕ)
  | connectedTo
  | disconnectedFrom
  | connClosed
  | readingStopped
  | failedAfterRetries
deriving DecidableEq, Repr

/-- Control outcome of processing one raw line: either the inner loop
continues, or the decode raised out of the `try/except ValueError` block. -/
inductive ReadOutcome
  | stepOk
  | decodeRaised
deriving DecidableEq, Repr

/-- One data-available iteration of the inner loop, main.py lines 103–125:
`line = conn.readline().decode('utf-8').strip()`, then `float(line)` inside
`try`; on success update `LATEST_VALUE`, the gauge, `PLOT_DATA` (trimmed to
`MAX_POINTS`) and the series; on `ValueError` log "Invalid data"; a decode
failure happens before the `try` and raises out of the iteration. -/
def processRawLine (maxPoints : ℕ) (d : DataState) (raw : List ℕ) :
    DataState × List LogEntry × ReadOutcome :=
  match utf8Decode raw with
  | none => (d, [], .decodeRaised)
  | some cps =>
    let line := pyStrip cps
    match pyFloat line with
    | none => (d, [.invalidData line], .stepOk)
    | some v =>
      let pd := record maxPoints d.plotData v
      ({ latestValue := v, gaugeValue := v / 100, gaugeLabel := v,
         plotData := pd, lineSeries := (List.range pd.length, pd) },
       [], .stepOk)

/-! ### Session state machine (main.py lines 64–140)

`read_from_arduino` runs on a daemon thread; `stop_reading_data` is a GUI
callback that may run at any point.  We model the worker as a program
counter over the source's control points and let the stop callback
interleave as a transition of its own. -/

/-- Connection status as shown by `update_status`. -/
inductive Status
  | notConnected
  | connecting
  | connected
  | retrying (n : ℕ)
  | disconnected
  | failed
  | noValidPort
deriving DecidableEq, Repr

/-- Control points of `read_from_arduino`.  Each carries the local
`retries` counter. -/
inductive Pc
  | outerCheck (retries : ℕ)
  | openAttempt (retries : ℕ)
  | innerCheck (retries : ℕ)
  | runFinally (retries : ℕ) (crashing : Bool)
  | epilog (retries : ℕ)
  | terminated
  | crashed
deriving DecidableEq, Repr

/-- Global session state: the module-level variables of main.py plus the
worker program counter and observation ghosts (status history, number of
`serial.Serial` calls, number of `close()` calls, recorded sleeps). -/
structure GState where
  pc : Pc
  stopThread : Bool
  conn : Bool
  status : Status
  statusHistory : List Status
  closeCount : ℕ
  openAttempts : ℕ
  opensOk : ℕ
  sleeps : List ℕ
  dataSt : DataState
  log : List LogEntry
deriving DecidableEq, Repr

/-- `stop_reading_data` (main.py lines 79–88): set `STOP_THREAD`, close and
null `SERIAL_CONNECTION` if non-null, then show "Disconnected". -/
def stopReadingData (s : GState) : GState :=
  let s1 : GState := { s with stopThread := true }
  let s2 : GState :=
    if s1.conn then
      { s1 with
          conn := false
          closeCount := s1.closeCount + 1
          log := s1.log ++ [.connClosed] }
    else s1
  { s2 with
      status := .disconnected
      statusHistory := s2.statusHistory ++ [.disconnected]
      log := s2.log ++ [.readingStopped] }

/-- Effect of one data-available inner iteration (lines 103–125) on the
global state: a decode failure raises out of the inner `while` into the
`finally` (crashing), otherwise control returns to the inner `while` check. -/
def applyLine (s : GState) (r : ℕ) (raw : List ℕ) : GState :=
  let res := processRawLine 100 s.dataSt raw
  { s with
      dataSt := res.1
      log := s.log ++ res.2.1
      pc := match res.2.2 with
            | .stepOk => .innerCheck r
            | .decodeRaised => .runFinally r true }

/-- The `finally` block (lines 132–136): close and null the connection if
non-null; then either re-test the outer `while` or, when an exception is
propagating, let it escape the function (worker thread dies). -/
def doFinally (s : GState) (r : ℕ) (crashing : Bool) : GState :=
  let s1 : GState :=
    if s.conn then
      { s with
          conn := false
          closeCount := s.closeCount + 1
          log := s.log ++ [.disconnectedFrom] }
    else s
  { s1 with pc := if crashing then .crashed else .outerCheck r }

/-- Lines 138–140 after the outer `while` exits: `if retries == 0 or
STOP_THREAD:` show the "Failed to connect" status. -/
def epilogResult (s : GState) (r : ℕ) : GState :=
  if r = 0 ∨ s.stopThread = true then
    { s with
        pc := .terminated
        status := .failed
        statusHistory := s.statusHistory ++ [.failed]
        log := s.log ++ [.failedAfterRetries] }
  else { s with pc := .terminated }

/-- Small-step transition relation of the session.  Worker transitions
follow `read_from_arduino`; `stopCall` is the GUI `stop_reading_data`
callback and may interleave anywhere.  At `openAttempt` the environment
chooses whether `serial.Serial(...)` succeeds (`openOk`) or raises
`SerialException` (`openFail`, lines 127–131).  At `innerCheck` the
environment chooses the next observable: a raw line, a `SerialException`
from the read, or the stop flag being seen. -/
inductive Step : GState → GState → Prop
  | outerContinue (s : GState) (r : ℕ)
      (hpc : s.pc = .outerCheck r) (hr : 0 < r) (hstop : s.stopThread = false) :
      Step s { s with pc := .openAttempt r }
  | outerExit (s : GState) (r : ℕ)
      (hpc : s.pc = .outerCheck r) (h : r = 0 ∨ s.stopThread = true) :
      Step s { s with pc := .epilog r }
  | openOk (s : GState) (r : ℕ) (hpc : s.pc = .openAttempt r) :
      Step s { s with
        pc := .innerCheck r
        conn := true
        openAttempts := s.openAttempts + 1
        opensOk := s.opensOk + 1
        status := .connected
        statusHistory := s.statusHistory ++ [.connected]
        log := s.log ++ [.connectedTo]
        sleeps := s.sleeps ++ [2] }
  | openFail (s : GState) (r : ℕ) (hpc : s.pc = .openAttempt r) :
      Step s { s with
        pc := .runFinally (r - 1) false
        openAttempts := s.openAttempts + 1
        status := .retrying (r - 1)
        statusHistory := s.statusHistory ++ [.retrying (r - 1)]
        log := s.log ++ [.serialConnError (r - 1)]
        sleeps := s.sleeps ++ [2] }
  | innerStop (s : GState) (r : ℕ)
      (hpc : s.pc = .innerCheck r) (h : s.stopThread = true) :
      Step s { s with pc := .runFinally r false }
  | innerLine (s : GState) (r : ℕ) (raw : List ℕ)
      (hpc : s.pc = .innerCheck r) (hstop : s.stopThread = false)
      (hconn : s.conn = true) :
      Step s (applyLine s r raw)
  | innerSerialErr (s : GState) (r : ℕ)
      (hpc : s.pc = .innerCheck r) (hstop : s.stopThread = false)
      (hconn : s.conn = true) :
      Step s { s with
        pc := .runFinally (r - 1) false
        status := .retrying (r - 1)
        statusHistory := s.statusHistory ++ [.retrying (r - 1)]
        log := s.log ++ [.serialConnError (r - 1)]
        sleeps := s.sleeps ++ [2] }
  | finallyStep (s : GState) (r : ℕ) (c : Bool) (hpc : s.pc = .runFinally r c) :
      Step s (doFinally s r c)
  | epilogStep (s : GState) (r : ℕ) (hpc : s.pc = .epilog r) :
      Step s (epilogResult s r)
  | stopCall (s : GState) : Step s (stopReadingData s)

/-- State right after a successful `start_reading_data` (lines 73–76):
status "Connecting", `STOP_THREAD = False`, the worker thread spawned at
the outer `while` with `retries = 3` (line 94). -/
def workerInit : GState :=
  { pc := .outerCheck 3
    stopThread := false
    conn := false
    status := .connecting
    statusHistory := [.connecting]
    closeCount := 0
    openAttempts := 0
    opensOk := 0
    sleeps := []
    dataSt := initDataState
    log := [] }

/-- Session states reachable from a fresh start. -/
def Reach (s : GState) : Prop := Relation.ReflTransGen Step workerInit s

/-- Result of the `start_reading_data` callback. -/
inductive StartOutcome
  | rejected (st : Status)
  | spawned (g : GState)
deriving DecidableEq, Repr

/-- `start_reading_data` (main.py lines 64–76).  `SELECTED_PORT` is `None`
initially; `not SELECTED_PORT` is true for `None` and for the empty
string.  On rejection it shows "No valid serial port selected!" and
returns without starting a thread. -/
def startReadingData (selectedPort : Option String) : StartOutcome :=
  if selectedPort = none ∨ selectedPort = some "" ∨
      selectedPort = some "No ports available" then
    .rejected .noValidPort
  else
    .spawned workerInit

/-- `refresh_ports` (lines 40–52): with no detected ports the port combo is
populated with the single sentinel item. -/
def comboItemsAfterRefresh (ports : List String) : List String :=
  if ports = [] then ["No ports available"] else ports

/-- The worker state after the outer `while` test passes: about to call
`serial.Serial` with full retries. -/
def gOpen3 : GState := { workerInit with pc := .openAttempt 3 }

/-- The worker state after a first successful open: connected, inside the
inner read loop. -/
def gConn3 : GState :=
  { gOpen3 with
      pc := .innerCheck 3
      conn := true
      openAttempts := 1
      opensOk := 1
      status := .connected
      statusHistory := [.connecting, .connected]
      log := [.connectedTo]
      sleeps := [2] }

/-- Status history of an all-failures run on reaching the outer `while`
check with `r` retries left. -/
def failHist : ℕ → List Status
  | 0 => [.connecting, .retrying 2, .retrying 1, .retrying 0]
  | 1 => [.connecting, .retrying 2, .retrying 1]
  | 2 => [.connecting, .retrying 2]
  | 3 => [.connecting]
  | _ => []

/-- What holds of an all-failures, no-stop run at each control point. -/
def NoOpenInvAt (s : GState) : Pc → Prop
  | .outerCheck r => r ≤ 3 ∧ s.openAttempts + r = 3 ∧
      s.statusHistory = failHist r ∧ s.sleeps = List.replicate (3 - r) 2
  | .openAttempt r => 0 < r ∧ r ≤ 3 ∧ s.openAttempts + r = 3 ∧
      s.statusHistory = failHist r ∧ s.sleeps = List.replicate (3 - r) 2
  | .runFinally r c => c = false ∧ r ≤ 3 ∧ s.openAttempts + r = 3 ∧
      s.statusHistory = failHist r ∧ s.sleeps = List.replicate (3 - r) 2
  | .epilog r => r = 0 ∧ s.openAttempts = 3 ∧
      s.statusHistory = failHist 0 ∧ s.sleeps = List.replicate 3 2
  | .innerCheck _ => False
  | .terminated => s.openAttempts = 3 ∧
      s.statusHistory = failHist 0 ++ [.failed] ∧
      s.sleeps = List.replicate 3 2 ∧ s.status = .failed
  | .crashed => False

/-- Invariant of runs that (so far) saw no stop call and no successful
open. -/
def NoOpenInv (s : GState) : Prop :=
  s.stopThread = false → s.opensOk = 0 → NoOpenInvAt s s.pc

/-- The "Failed to connect" status is only ever shown by the epilogue, at
which point the worker has terminated. -/
def FailedInv (s : GState) : Prop := s.status = .failed → s.pc = .terminated

/-- Intermediate state of the all-failures run: retrying with `r` retries
left, about to re-test the outer `while` (after the `finally`). -/
def failRun (r : ℕ) : GState :=
  { pc := .outerCheck r
    stopThread := false
    conn := false
    status := .retrying r
    statusHistory := failHist r
    closeCount := 0
    openAttempts := 3 - r
    opensOk := 0
    sleeps := List.replicate (3 - r) 2
    dataSt := initDataState
    log := (List.range (3 - r)).map (fun i => .serialConnError (2 - i)) }

/-- Terminal state of the all-failures run. -/
def failFinal : GState :=
  { pc := .terminated
    stopThread := false
    conn := false
    status := .failed
    statusHistory := [.connecting, .retrying 2, .retrying 1, .retrying 0,
      .failed]
    closeCount := 0
    openAttempts := 3
    opensOk := 0
    sleeps := [2, 2, 2]
    dataSt := initDataState
    log := [.serialConnError 2, .serialConnError 1, .serialConnError 0,
      .failedAfterRetries] }

/-- Session state right after `stop_reading_data` runs while the worker is
connected: status "Disconnected", handle closed once, stop flag set. -/
def gStopped : GState :=
  { pc := .innerCheck 3
    stopThread := true
    conn := false
    status := .disconnected
    statusHistory := [.connecting, .connected, .disconnected]
    closeCount := 1
    openAttempts := 1
    opensOk := 1
    sleeps := [2]
    dataSt := initDataState
    log := [.connectedTo, .connClosed, .readingStopped] }

/-- Session state after the worker subsequently observes the stop flag and
runs the line 138 epilogue: `STOP_THREAD` is true, so the "Failed to
connect" status overwrites "Disconnected". -/
def gStopFinal : GState :=
  { pc := .terminated
    stopThread := true
    conn := false
    status := .failed
    statusHistory := [.connecting, .connected, .disconnected, .failed]
    closeCount := 1
    openAttempts := 1
    opensOk := 1
    sleeps := [2]
    dataSt := initDataState
    log := [.connectedTo, .connClosed, .readingStopped,
      .failedAfterRetries] }

/-! ### Statement-granularity refinement of the session machine

The relation `Step` treats each source construct (the open at lines 97–100,
the body of `stop_reading_data`, the `finally`) as one transition.  The
connection-resource invariant, however, is a claim about every instant, and
the source interleaves at Python statement granularity: line 97 assigns the
handle before line 98 shows "Connected"; `stop_reading_data` closes at
line 84 before nulling at line 85 and shows "Disconnected" at line 87; the
`finally` closes at line 134 before nulling at line 135.  `FStep` refines
`Step` to that granularity, keeping the fields the resource claim speaks
about: the worker and stop-callback program counters, the stop flag, whether
the module-level reference is non-null (`connRef`), whether the underlying
device handle is open (`handleOpen`), and the current status. -/

/-- Position of the GUI thread inside `stop_reading_data` (lines 79–88). -/
inductive StopPc
  | idle
  | afterFlag
  | midClose
  | beforeStatus
deriving DecidableEq, Repr

/-- Worker control points of `read_from_arduino` at statement granularity:
`postOpen` is between line 97 (handle assigned) and line 98 (status shown);
`finallyCheck` is line 133, `finallyMid` between line 134 (`close()`) and
line 135 (`= None`). -/
inductive FPc
  | outerCheck (retries : ℕ)
  | openAttempt (retries : ℕ)
  | postOpen (retries : ℕ)
  | innerCheck (retries : ℕ)
  | finallyCheck (retries : ℕ) (crashing : Bool)
  | finallyMid (retries : ℕ) (crashing : Bool)
  | epilog (retries : ℕ)
  | terminated
  | crashed
deriving DecidableEq, Repr

/-- Fine-grained session state.  `connRef` is `SERIAL_CONNECTION is not
None`; `handleOpen` is whether the pyserial handle bound to that reference
is open — the two separate exactly in the close-then-null windows. -/
structure FState where
  pc : FPc
  stopPc : StopPc
  stopThread : Bool
  connRef : Bool
  handleOpen : Bool
  status : Status
deriving DecidableEq, Repr

/-- Lines 138–140 on the fine state. -/
def fEpilogResult (s : FState) (r : ℕ) : FState :=
  if r = 0 ∨ s.stopThread = true then
    { s with pc := .terminated, status := .failed }
  else { s with pc := .terminated }

/-- Statement-level transition relation.  Worker steps follow
`read_from_arduino`; the five `stop` steps are the statements of
`stop_reading_data`, which the GUI thread may run at any point. -/
inductive FStep : FState → FState → Prop
  | outerContinue (s : FState) (r : ℕ)
      (hpc : s.pc = .outerCheck r) (hr : 0 < r) (hstop : s.stopThread = false) :
      FStep s { s with pc := .openAttempt r }
  | outerExit (s : FState) (r : ℕ)
      (hpc : s.pc = .outerCheck r) (h : r = 0 ∨ s.stopThread = true) :
      FStep s { s with pc := .epilog r }
  | openOk (s : FState) (r : ℕ) (hpc : s.pc = .openAttempt r) :
      FStep s { s with pc := .postOpen r, connRef := true, handleOpen := true }
  | openFail (s : FState) (r : ℕ) (hpc : s.pc = .openAttempt r) :
      FStep s { s with
        pc := .finallyCheck (r - 1) false
        status := .retrying (r - 1) }
  | connectedShown (s : FState) (r : ℕ) (hpc : s.pc = .postOpen r) :
      FStep s { s with pc := .innerCheck r, status := .connected }
  | innerStop (s : FState) (r : ℕ)
      (hpc : s.pc = .innerCheck r) (h : s.stopThread = true) :
      FStep s { s with pc := .finallyCheck r false }
  | innerCrash (s : FState) (r : ℕ)
      (hpc : s.pc = .innerCheck r) (hstop : s.stopThread = false)
      (hconn : s.connRef = true) :
      FStep s { s with pc := .finallyCheck r true }
  | innerSerialErr (s : FState) (r : ℕ)
      (hpc : s.pc = .innerCheck r) (hstop : s.stopThread = false)
      (hconn : s.connRef = true) :
      FStep s { s with
        pc := .finallyCheck (r - 1) false
        status := .retrying (r - 1) }
  | finallyClose (s : FState) (r : ℕ) (c : Bool)
      (hpc : s.pc = .finallyCheck r c) (hconn : s.connRef = true) :
      FStep s { s with handleOpen := false, pc := .finallyMid r c }
  | finallySkip (s : FState) (r : ℕ) (c : Bool)
      (hpc : s.pc = .finallyCheck r c) (hconn : s.connRef = false) :
      FStep s { s with pc := if c then .crashed else .outerCheck r }
  | finallyNull (s : FState) (r : ℕ) (c : Bool)
      (hpc : s.pc = .finallyMid r c) :
      FStep s { s with
        connRef := false
        pc := if c then .crashed else .outerCheck r }
  | epilogStep (s : FState) (r : ℕ) (hpc : s.pc = .epilog r) :
      FStep s (fEpilogResult s r)
  | stopBegin (s : FState) (h : s.stopPc = .idle) :
      FStep s { s with stopThread := true, stopPc := .afterFlag }
  | stopClose (s : FState) (h : s.stopPc = .afterFlag)
      (hconn : s.connRef = true) :
      FStep s { s with handleOpen := false, stopPc := .midClose }
  | stopSkip (s : FState) (h : s.stopPc = .afterFlag)
      (hconn : s.connRef = false) :
      FStep s { s with stopPc := .beforeStatus }
  | stopNull (s : FState) (h : s.stopPc = .midClose) :
      FStep s { s with connRef := false, stopPc := .beforeStatus }
  | stopShown (s : FState) (h : s.stopPc = .beforeStatus) :
      FStep s { s with status := .disconnected, stopPc := .idle }

/-- Fine state right after a successful `start_reading_data`. -/
def fInit : FState :=
  { pc := .outerCheck 3
    stopPc := .idle
    stopThread := false
    connRef := false
    handleOpen := false
    status := .connecting }

/-- Fine session states reachable from a fresh start. -/
def FReach (s : FState) : Prop := Relation.ReflTransGen FStep fInit s

/-- Control points at which `SERIAL_CONNECTION` is always `None`. -/
def pcClosedF : FPc → Bool
  | .outerCheck _ => true
  | .openAttempt _ => true
  | .epilog _ => true
  | .terminated => true
  | .crashed => true
  | _ => false

/-- The worker is between `close()` (line 134) and `= None` (line 135). -/
def isFinallyMid : FPc → Bool
  | .finallyMid _ _ => true
  | _ => false

/-- The GUI thread is between `close()` (line 84) and `= None` (line 85). -/
def isMidClose : StopPc → Bool
  | .midClose => true
  | _ => false

/-- Some thread is inside a close-then-null window: the only instants at
which the reference is non-null but the handle already closed. -/
def inCloseWindow (s : FState) : Bool := isMidClose s.stopPc || isFinallyMid s.pc

/-- Connection-resource invariant that actually holds of the source:
the reference is null at every control point outside the `try` body; the
status never returns to Idle; Failed is only shown once terminated; and a
non-null reference outside the close windows is an open handle.  (The
claimed "never non-null while Disconnected" is NOT an invariant: see
the stop-racing-open counterexample.) -/
def FInv (s : FState) : Prop :=
  (pcClosedF s.pc = true → s.connRef = false) ∧
    s.status ≠ .notConnected ∧
    (s.status = .failed → s.pc = .terminated) ∧
    (s.connRef = true → inCloseWindow s = false → s.handleOpen = true)

/-- State at the tip of the stop-racing-open interleaving: the stop
callback completed while the open of line 97 was in flight, so the status
shows "Disconnected" yet line 97 has just installed a non-null open
handle. -/
def fStopRaced : FState :=
  { pc := .postOpen 3
    stopPc := .idle
    stopThread := true
    connRef := true
    handleOpen := true
    status := .disconnected }

/-- State inside the stop callback's close window (between lines 84 and
85): the reference is still non-null but the handle is already closed. -/
def fConnMidClose : FState :=
  { pc := .innerCheck 3
    stopPc := .midClose
    stopThread := true
    connRef := true
    handleOpen := false
    status := .connected }

/-! ### Projection lemmas for the transition functions -/

lemma stopReadingData_status (s : GState) :
    (stopReadingData s).status = .disconnected := rfl

lemma stopReadingData_stopThread (s : GState) :
    (stopReadingData s).stopThread = true := by
  by_cases h : s.conn <;> simp [stopReadingData, h]

lemma stopReadingData_conn (s : GState) : (stopReadingData s).conn = false := by
  by_cases h : s.conn <;> simp [stopReadingData, h]

lemma stopReadingData_closeCount (s : GState) :
    (stopReadingData s).closeCount = s.closeCount + (if s.conn then 1 else 0) := by
  by_cases h : s.conn <;> simp [stopReadingData, h]

lemma stopReadingData_openAttempts (s : GState) :
    (stopReadingData s).openAttempts = s.openAttempts := by
  by_cases h : s.conn <;> simp [stopReadingData, h]

lemma stopReadingData_pc (s : GState) : (stopReadingData s).pc = s.pc := by
  by_cases h : s.conn <;> simp [stopReadingData, h]

lemma applyLine_conn (s : GState) (r : ℕ) (raw : List ℕ) :
    (applyLine s r raw).conn = s.conn := rfl

lemma applyLine_status (s : GState) (r : ℕ) (raw : List ℕ) :
    (applyLine s r raw).status = s.status := rfl

lemma applyLine_stopThread (s : GState) (r : ℕ) (raw : List ℕ) :
    (applyLine s r raw).stopThread = s.stopThread := rfl

lemma applyLine_opensOk (s : GState) (r : ℕ) (raw : List ℕ) :
    (applyLine s r raw).opensOk = s.opensOk := rfl

lemma applyLine_openAttempts (s : GState) (r : ℕ) (raw : List ℕ) :
    (applyLine s r raw).openAttempts = s.openAttempts := rfl

lemma doFinally_conn (s : GState) (r : ℕ) (c : Bool) :
    (doFinally s r c).conn = false := by
  by_cases h : s.conn <;> simp [doFinally, h]

lemma doFinally_status (s : GState) (r : ℕ) (c : Bool) :
    (doFinally s r c).status = s.status := by
  by_cases h : s.conn <;> simp [doFinally, h]

lemma doFinally_stopThread (s : GState) (r : ℕ) (c : Bool) :
    (doFinally s r c).stopThread = s.stopThread := by
  by_cases h : s.conn <;> simp [doFinally, h]

lemma doFinally_opensOk (s : GState) (r : ℕ) (c : Bool) :
    (doFinally s r c).opensOk = s.opensOk := by
  by_cases h : s.conn <;> simp [doFinally, h]

lemma doFinally_openAttempts (s : GState) (r : ℕ) (c : Bool) :
    (doFinally s r c).openAttempts = s.openAttempts := by
  by_cases h : s.conn <;> simp [doFinally, h]

lemma doFinally_statusHistory (s : GState) (r : ℕ) (c : Bool) :
    (doFinally s r c).statusHistory = s.statusHistory := by
  by_cases h : s.conn <;> simp [doFinally, h]

lemma doFinally_sleeps (s : GState) (r : ℕ) (c : Bool) :
    (doFinally s r c).sleeps = s.sleeps := by
  by_cases h : s.conn <;> simp [doFinally, h]

lemma doFinally_pc (s : GState) (r : ℕ) (c : Bool) :
    (doFinally s r c).pc = if c then .crashed else .outerCheck r := by
  by_cases h : s.conn <;> simp [doFinally, h]

lemma epilogResult_pc (s : GState) (r : ℕ) :
    (epilogResult s r).pc = .terminated := by
  by_cases h : r = 0 ∨ s.stopThread = true <;> simp [epilogResult, h]

lemma epilogResult_conn (s : GState) (r : ℕ) :
    (epilogResult s r).conn = s.conn := by
  by_cases h : r = 0 ∨ s.stopThread = true <;> simp [epilogResult, h]

lemma epilogResult_stopThread (s : GState) (r : ℕ) :
    (epilogResult s r).stopThread = s.stopThread := by
  by_cases h : r = 0 ∨ s.stopThread = true <;> simp [epilogResult, h]

lemma epilogResult_opensOk (s : GState) (r : ℕ) :
    (epilogResult s r).opensOk = s.opensOk := by
  by_cases h : r = 0 ∨ s.stopThread = true <;> simp [epilogResult, h]

lemma epilogResult_openAttempts (s : GState) (r : ℕ) :
    (epilogResult s r).openAttempts = s.openAttempts := by
  by_cases h : r = 0 ∨ s.stopThread = true <;> simp [epilogResult, h]

/-! ### Rolling-buffer lemmas -/

lemma record_eq_drop {α : Type} (M : ℕ) (buf : List α) (v : α)
    (h : buf.length ≤ M) :
    record M buf v = (buf ++ [v]).drop (buf.length + 1 - M) := by
  unfold record
  by_cases hM : M < (buf ++ [v]).length
  · have hlen : (buf ++ [v]).length = buf.length + 1 := by simp
    have h1 : buf.length + 1 - M = 1 := by omega
    simp [hM, h1]
    intro h2
    exfalso
    omega
  · have hlen : (buf ++ [v]).length = buf.length + 1 := by simp
    have h0 : buf.length + 1 - M = 0 := by omega
    simp [hM, h0]
    intro h2
    exfalso
    omega

lemma record_length_le {α : Type} (M : ℕ) (buf : List α) (v : α)
    (h : buf.length ≤ M) : (record M buf v).length ≤ M := by
  rw [record_eq_drop M buf v h]
  simp only [List.length_drop, List.length_append, List.length_cons,
    List.length_nil]
  omega

lemma foldl_record {α : Type} (M : ℕ) (vs : List α) :
    ∀ buf : List α, buf.length ≤ M →
      vs.foldl (record M) buf = (buf ++ vs).drop (buf.length + vs.length - M) := by
  induction vs with
  | nil =>
    intro buf h
    have h0 : buf.length - M = 0 := by omega
    simp [h0]
  | cons v tl ih =>
    intro buf h
    have hrec := record_eq_drop M buf v h
    have hlen1 : (record M buf v).length ≤ M := record_length_le M buf v h
    have hih := ih (record M buf v) hlen1
    rw [List.foldl_cons, hih, hrec]
    have hdle : buf.length + 1 - M ≤ (buf ++ [v]).length := by simp
    rw [← List.drop_append_of_le_length hdle, List.drop_drop]
    have hX : buf ++ v :: tl = (buf ++ [v]) ++ tl := by simp
    rw [hX]
    congr 1
    simp only [List.length_drop, List.length_append, List.length_cons,
      List.length_nil]
    omega

/-- C1: after more than `max_points` record operations the buffer is exactly
the last `max_points` recorded values, in order, oldest evicted first
(main.py lines 113–116). -/
theorem record_window {α : Type} (M : ℕ) (vs : List α) (h : M < vs.length) :
    (vs.foldl (record M) []).length = M ∧
      vs.foldl (record M) [] = vs.drop (vs.length - M) := by
  have hf := foldl_record M vs [] (by simp)
  simp only [List.nil_append, List.length_nil, Nat.zero_add] at hf
  refine ⟨?_, hf⟩
  rw [hf]
  simp only [List.length_drop]
  omega

/-- Witness for `record_window`: the spec's own example, `max_points = 3`,
records `[1, 2, 3, 4]`, snapshot `[2, 3, 4]`. -/
theorem record_window_witness :
    ([1, 2, 3, 4] : List ℤ).foldl (record 3) [] = [2, 3, 4] := by
  rw [(record_window 3 ([1, 2, 3, 4] : List ℤ) (by decide)).2]
  decide

/-- C8: every `record` call preserves the invariant
`buffer length ≤ max_points` (main.py lines 114–116). -/
theorem record_preserves_bound {α : Type} (M : ℕ) (buf : List α) (v : α)
    (h : buf.length ≤ M) : (record M buf v).length ≤ M :=
  record_length_le M buf v h

/-- Witness for `record_preserves_bound` at a full buffer. -/
theorem record_preserves_bound_witness :
    (record 3 ([1, 2, 3] : List ℤ) 4).length ≤ 3 :=
  record_preserves_bound 3 [1, 2, 3] 4 (by decide)

/-- C3: `start_reading_data` fails fast when the selected port is unset,
empty, or the sentinel "No ports available" (main.py lines 68–71): it
reports the configuration error, spawns no worker (hence no open attempt),
and returns normally.  The sentinel is exactly what the port combo holds
after `refresh_ports` sees an empty enumeration (lines 48–52). -/
theorem start_rejects_invalid_port (p : Option String)
    (h : p = none ∨ p = some "" ∨ p = some "No ports available") :
    startReadingData p = .rejected .noValidPort ∧
      (∀ g : GState, startReadingData p ≠ .spawned g) ∧
      (∀ q ∈ comboItemsAfterRefresh [], startReadingData (some q) =
        .rejected .noValidPort) := by
  refine ⟨?_, ?_, ?_⟩
  · simp [startReadingData, h]
  · intro g
    simp [startReadingData, h]
  · intro q hq
    simp [comboItemsAfterRefresh] at hq
    simp [startReadingData, hq]

/-- Witness for `start_rejects_invalid_port` at the sentinel port value. -/
theorem start_rejects_invalid_port_witness :
    startReadingData (some "No ports available") = .rejected .noValidPort :=
  (start_rejects_invalid_port (some "No ports available")
    (Or.inr (Or.inr rfl))).1

/-- C4: `stop_reading_data` is idempotent (main.py lines 79–88): both calls
leave the status "Disconnected", the two calls together close the handle
exactly once (and only if one was open), the second call closes nothing,
and a call with no open connection closes nothing. -/
theorem stop_idempotent (s : GState) :
    (stopReadingData s).status = .disconnected ∧
      (stopReadingData (stopReadingData s)).status = .disconnected ∧
      (stopReadingData (stopReadingData s)).closeCount =
        s.closeCount + (if s.conn then 1 else 0) ∧
      (stopReadingData (stopReadingData s)).closeCount =
        (stopReadingData s).closeCount ∧
      (s.conn = false → (stopReadingData s).closeCount = s.closeCount) := by
  refine ⟨stopReadingData_status s, stopReadingData_status _, ?_, ?_, ?_⟩
  · rw [stopReadingData_closeCount, stopReadingData_conn,
      stopReadingData_closeCount]
    simp
  · rw [stopReadingData_closeCount (stopReadingData s), stopReadingData_conn]
    simp
  · intro h
    rw [stopReadingData_closeCount, h]
    simp

/-- Witness for `stop_idempotent` on a running connected session. -/
theorem stop_idempotent_witness :
    (stopReadingData { workerInit with conn := true }).status =
        .disconnected ∧
      (stopReadingData (stopReadingData { workerInit with conn := true
        })).closeCount = 1 := by
  refine ⟨(stop_idempotent { workerInit with conn := true }).1, ?_⟩
  have h := (stop_idempotent { workerInit with conn := true }).2.2.1
  simpa using h

/-! ### Line-processing claims -/

/-- A line whose `float` conversion raises only logs "Invalid data": no
other state is touched and the inner loop continues (lines 105–125). -/
lemma processRawLine_parse_none (M : ℕ) (d : DataState) (raw cps : List ℕ)
    (h1 : utf8Decode raw = some cps) (h2 : pyFloat (pyStrip cps) = none) :
    processRawLine M d raw = (d, [.invalidData (pyStrip cps)], .stepOk) := by
  simp [processRawLine, h1, h2]

lemma pyFloat_nil : pyFloat [] = none := by decide

/-- C10: a `float(line)` failure is atomic — `LATEST_VALUE`, the gauge,
`PLOT_DATA` and the rendered series are unchanged; the only effect is the
"Invalid data" log entry, and the loop continues (main.py lines 105–125). -/
theorem parse_failure_atomic (d : DataState) (raw cps : List ℕ)
    (h1 : utf8Decode raw = some cps)
    (h2 : pyFloat (pyStrip cps) = none) :
    processRawLine 100 d raw = (d, [.invalidData (pyStrip cps)], .stepOk) :=
  processRawLine_parse_none 100 d raw cps h1 h2

/-- Witness for `parse_failure_atomic`: the line "abc". -/
theorem parse_failure_atomic_witness :
    processRawLine 100 initDataState [0x61, 0x62, 0x63] =
      (initDataState, [.invalidData [0x61, 0x62, 0x63]], .stepOk) :=
  parse_failure_atomic initDataState [0x61, 0x62, 0x63] [0x61, 0x62, 0x63]
    (by decide) (by decide)

/-- C7 counterexample: an empty line (raw `b"\n"`, empty after stripping)
does produce a log entry — `float("")` raises `ValueError` and line 125
logs "Invalid data" — contradicting "no error or log entry is produced". -/
theorem empty_line_logged_cex :
    (processRawLine 100 initDataState [0x0A]).2.1 ≠ [] := by decide

/-- C7 amended: a line that is empty after stripping is discarded with no
data event — no buffer update, no latest-value change, no series update,
and the loop continues — but an "Invalid data" error log entry is
produced (main.py lines 104–125). -/
theorem empty_line_no_data_event (d : DataState) (raw cps : List ℕ)
    (h1 : utf8Decode raw = some cps) (h2 : pyStrip cps = []) :
    processRawLine 100 d raw = (d, [.invalidData []], .stepOk) := by
  have h3 : pyFloat (pyStrip cps) = none := by rw [h2]; exact pyFloat_nil
  have h := processRawLine_parse_none 100 d raw cps h1 h3
  rw [h2] at h
  exact h

/-- Witness for `empty_line_no_data_event`: the raw line `b"\n"`. -/
theorem empty_line_no_data_event_witness :
    processRawLine 100 initDataState [0x0A] =
      (initDataState, [.invalidData []], .stepOk) :=
  empty_line_no_data_event initDataState [0x0A] [0x0A] (by decide) (by decide)

lemma reach_gConn3 : Reach gConn3 := by
  have h1 : Step workerInit gOpen3 :=
    Step.outerContinue workerInit 3 rfl (by decide) rfl
  have h2 : Step gOpen3 gConn3 := Step.openOk gOpen3 3 rfl
  exact (Relation.ReflTransGen.refl.tail h1).tail h2

/-- C6: a raw line whose UTF-8 decoding fails is NOT logged and does NOT
let the loop continue: `decode` at line 104 sits outside the
`try/except ValueError`, and `UnicodeDecodeError` is no
`serial.SerialException`, so it propagates — the `finally` closes the
port and the worker thread dies (reachable `crashed` state). -/
theorem decode_failure_kills_worker :
    (∀ (d : DataState) (raw : List ℕ), utf8Decode raw = none →
        processRawLine 100 d raw = (d, [], .decodeRaised)) ∧
      (∃ g : GState, Reach g ∧ g.pc = .crashed ∧ g.conn = false ∧
        g.log = [.connectedTo, .disconnectedFrom]) := by
  constructor
  · intro d raw h
    simp [processRawLine, h]
  · have h3 := Step.innerLine gConn3 3 [0xFF] rfl rfl rfl
    have h4 := Step.finallyStep (applyLine gConn3 3 [0xFF]) 3 true rfl
    refine ⟨_, (reach_gConn3.tail h3).tail h4, ?_, ?_, ?_⟩ <;> decide

/-- Witness for `decode_failure_kills_worker`: the byte line `0xFF`. -/
theorem decode_failure_kills_worker_witness :
    processRawLine 100 initDataState [0xFF] =
      (initDataState, [], .decodeRaised) :=
  decode_failure_kills_worker.1 initDataState [0xFF] (by decide)

/-! ### Retry exhaustion (C2)

In a run where the stop flag is never raised and no open ever succeeds,
the worker is deterministic; we characterise every reachable state of such
a run by an inductive invariant keyed on the program counter. -/

lemma failHist_step (r : ℕ) (h1 : 1 ≤ r) (h2 : r ≤ 3) :
    failHist r ++ [.retrying (r - 1)] = failHist (r - 1) := by
  interval_cases r <;> rfl

lemma noOpenInv_step {s t : GState} (h : NoOpenInv s) (hst : Step s t) :
    NoOpenInv t := by
  cases hst with
  | outerContinue r hpc hr hstop =>
    intro hstop2 hok2
    have hm := h hstop2 hok2
    rw [hpc] at hm
    exact ⟨hr, hm.1, hm.2.1, hm.2.2.1, hm.2.2.2⟩
  | outerExit r hpc hor =>
    intro hstop2 hok2
    have hm := h hstop2 hok2
    rw [hpc] at hm
    obtain ⟨hr3, hatt, hhist, hsl⟩ := hm
    have hr0 : r = 0 := by
      rcases hor with hr0 | hstop3
      · exact hr0
      · exact absurd (hstop3.symm.trans (hstop2 : s.stopThread = false))
          (by decide)
    subst hr0
    refine ⟨rfl, ?_, hhist, hsl⟩
    show s.openAttempts = 3
    omega
  | openOk r hpc =>
    intro _ hok2
    exact absurd (hok2 : s.opensOk + 1 = 0) (Nat.succ_ne_zero _)
  | openFail r hpc =>
    intro hstop2 hok2
    have hm := h hstop2 hok2
    rw [hpc] at hm
    obtain ⟨hr0, hr3, hatt, hhist, hsl⟩ := hm
    refine ⟨rfl, ?_, ?_, ?_, ?_⟩
    · omega
    · show s.openAttempts + 1 + (r - 1) = 3
      omega
    · show s.statusHistory ++ [.retrying (r - 1)] = failHist (r - 1)
      rw [hhist]
      exact failHist_step r hr0 hr3
    · show s.sleeps ++ [2] = List.replicate (3 - (r - 1)) 2
      rw [hsl, ← List.replicate_succ']
      congr 1
      omega
  | innerStop r hpc hstop =>
    intro hstop2 _
    exact absurd (hstop.symm.trans (hstop2 : s.stopThread = false)) (by decide)
  | innerLine r raw hpc hstop hconn =>
    intro hstop2 hok2
    have hm := h (hstop2 : s.stopThread = false) (hok2 : s.opensOk = 0)
    rw [hpc] at hm
    exact hm.elim
  | innerSerialErr r hpc hstop hconn =>
    intro hstop2 hok2
    have hm := h (hstop2 : s.stopThread = false) (hok2 : s.opensOk = 0)
    rw [hpc] at hm
    exact hm.elim
  | finallyStep r c hpc =>
    intro hstop2 hok2
    rw [doFinally_stopThread] at hstop2
    rw [doFinally_opensOk] at hok2
    have hm := h hstop2 hok2
    rw [hpc] at hm
    obtain ⟨hc, hr3, hatt, hhist, hsl⟩ := hm
    subst hc
    have hp : (doFinally s r false).pc = .outerCheck r := by
      rw [doFinally_pc]
      rfl
    rw [hp]
    refine ⟨hr3, ?_, ?_, ?_⟩
    · rw [doFinally_openAttempts]
      exact hatt
    · rw [doFinally_statusHistory]
      exact hhist
    · rw [doFinally_sleeps]
      exact hsl
  | epilogStep r hpc =>
    intro hstop2 hok2
    rw [epilogResult_stopThread] at hstop2
    rw [epilogResult_opensOk] at hok2
    have hm := h hstop2 hok2
    rw [hpc] at hm
    obtain ⟨hr0, hatt, hhist, hsl⟩ := hm
    subst hr0
    have hres : epilogResult s 0 =
        { s with
            pc := .terminated
            status := .failed
            statusHistory := s.statusHistory ++ [.failed]
            log := s.log ++ [.failedAfterRetries] } := by
      simp [epilogResult]
    rw [hres]
    exact ⟨hatt, by rw [hhist], hsl, rfl⟩
  | stopCall =>
    intro hstop2 _
    exact absurd ((stopReadingData_stopThread s).symm.trans hstop2) (by decide)

lemma reach_noOpenInv {s : GState} (h : Reach s) : NoOpenInv s := by
  induction h with
  | refl =>
    intro _ _
    exact ⟨by decide, rfl, rfl, rfl⟩
  | tail hab hbc ih => exact noOpenInv_step ih hbc

lemma failedInv_step {s t : GState} (h : FailedInv s) (hst : Step s t) :
    FailedInv t := by
  cases hst with
  | outerContinue r hpc hr hstop =>
    intro hf
    have h2 := h (hf : s.status = .failed)
    rw [hpc] at h2
    exact (nomatch h2)
  | outerExit r hpc hor =>
    intro hf
    have h2 := h (hf : s.status = .failed)
    rw [hpc] at h2
    exact (nomatch h2)
  | openOk r hpc =>
    intro hf
    exact (nomatch hf)
  | openFail r hpc =>
    intro hf
    exact (nomatch hf)
  | innerStop r hpc hstop =>
    intro hf
    have h2 := h (hf : s.status = .failed)
    rw [hpc] at h2
    exact (nomatch h2)
  | innerLine r raw hpc hstop hconn =>
    intro hf
    have h2 := h (hf : s.status = .failed)
    rw [hpc] at h2
    exact (nomatch h2)
  | innerSerialErr r hpc hstop hconn =>
    intro hf
    exact (nomatch hf)
  | finallyStep r c hpc =>
    intro hf
    rw [doFinally_status] at hf
    have h2 := h hf
    rw [hpc] at h2
    exact (nomatch h2)
  | epilogStep r hpc =>
    intro _
    exact epilogResult_pc s r
  | stopCall =>
    intro hf
    rw [stopReadingData_status] at hf
    exact (nomatch hf)

lemma reach_failedInv {s : GState} (h : Reach s) : FailedInv s := by
  induction h with
  | refl =>
    intro hf
    exact (nomatch hf)
  | tail hab hbc ih => exact failedInv_step ih hbc

/-- Once the worker has terminated, the only step still possible is the
GUI stop callback. -/
lemma step_from_terminated {s t : GState} (hpc : s.pc = .terminated)
    (hst : Step s t) : t = stopReadingData s := by
  cases hst with
  | stopCall => rfl
  | outerContinue r hpc2 hr hstop =>
    rw [hpc] at hpc2
    exact (nomatch hpc2)
  | outerExit r hpc2 hor =>
    rw [hpc] at hpc2
    exact (nomatch hpc2)
  | openOk r hpc2 =>
    rw [hpc] at hpc2
    exact (nomatch hpc2)
  | openFail r hpc2 =>
    rw [hpc] at hpc2
    exact (nomatch hpc2)
  | innerStop r hpc2 hstop =>
    rw [hpc] at hpc2
    exact (nomatch hpc2)
  | innerLine r raw hpc2 hstop hconn =>
    rw [hpc] at hpc2
    exact (nomatch hpc2)
  | innerSerialErr r hpc2 hstop hconn =>
    rw [hpc] at hpc2
    exact (nomatch hpc2)
  | finallyStep r c hpc2 =>
    rw [hpc] at hpc2
    exact (nomatch hpc2)
  | epilogStep r hpc2 =>
    rw [hpc] at hpc2
    exact (nomatch hpc2)

lemma noOpenInvAt_attempts_le {s : GState} (hm : NoOpenInvAt s s.pc) :
    s.openAttempts ≤ 3 := by
  cases hp : s.pc <;> rw [hp] at hm
  case outerCheck r =>
    obtain ⟨_, hatt, _, _⟩ := hm
    omega
  case openAttempt r =>
    obtain ⟨_, _, hatt, _, _⟩ := hm
    omega
  case innerCheck r => exact hm.elim
  case runFinally r c =>
    obtain ⟨_, _, hatt, _, _⟩ := hm
    omega
  case epilog r =>
    obtain ⟨_, hatt, _, _⟩ := hm
    omega
  case terminated =>
    obtain ⟨hatt, _, _, _⟩ := hm
    omega
  case crashed => exact hm.elim

lemma reach_failFinal : Reach failFinal := by
  have s01 : Step workerInit gOpen3 :=
    Step.outerContinue workerInit 3 rfl (by decide) rfl
  have s12 : Step gOpen3 { failRun 2 with pc := .runFinally 2 false } :=
    Step.openFail gOpen3 3 rfl
  have s23 : Step { failRun 2 with pc := .runFinally 2 false } (failRun 2) :=
    Step.finallyStep { failRun 2 with pc := .runFinally 2 false } 2 false rfl
  have s34 : Step (failRun 2) { failRun 2 with pc := .openAttempt 2 } :=
    Step.outerContinue (failRun 2) 2 rfl (by decide) rfl
  have s45 : Step { failRun 2 with pc := .openAttempt 2 }
      { failRun 1 with pc := .runFinally 1 false } :=
    Step.openFail { failRun 2 with pc := .openAttempt 2 } 2 rfl
  have s56 : Step { failRun 1 with pc := .runFinally 1 false } (failRun 1) :=
    Step.finallyStep { failRun 1 with pc := .runFinally 1 false } 1 false rfl
  have s67 : Step (failRun 1) { failRun 1 with pc := .openAttempt 1 } :=
    Step.outerContinue (failRun 1) 1 rfl (by decide) rfl
  have s78 : Step { failRun 1 with pc := .openAttempt 1 }
      { failRun 0 with pc := .runFinally 0 false } :=
    Step.openFail { failRun 1 with pc := .openAttempt 1 } 1 rfl
  have s89 : Step { failRun 0 with pc := .runFinally 0 false } (failRun 0) :=
    Step.finallyStep { failRun 0 with pc := .runFinally 0 false } 0 false rfl
  have s9a : Step (failRun 0) { failRun 0 with pc := .epilog 0 } :=
    Step.outerExit (failRun 0) 0 rfl (Or.inl rfl)
  have sab : Step { failRun 0 with pc := .epilog 0 } failFinal :=
    Step.epilogStep { failRun 0 with pc := .epilog 0 } 0 rfl
  exact ((((((((((Relation.ReflTransGen.refl.tail s01).tail s12).tail
    s23).tail s34).tail s45).tail s56).tail s67).tail s78).tail s89).tail
    s9a).tail sab

/-- C2: in any run where the stop flag is never raised and no open ever
succeeds, the worker makes at most 3 open attempts; if it terminates it
made exactly 3, slept the fixed 2-unit backoff after each failure, and
showed Connecting, Retrying (×3), then Failed; once Failed is shown no
step increases the attempt count.  Such a terminating run exists
(main.py lines 94–140). -/
theorem retry_exhaustion :
    (∀ s : GState, Reach s → s.stopThread = false → s.opensOk = 0 →
        s.openAttempts ≤ 3 ∧
          (s.pc = .terminated →
            s.openAttempts = 3 ∧
              s.statusHistory =
                [.connecting, .retrying 2, .retrying 1, .retrying 0,
                  .failed] ∧
              s.sleeps = [2, 2, 2] ∧ s.status = .failed) ∧
          (s.status = .failed → ∀ t : GState, Step s t →
            t.openAttempts = s.openAttempts)) ∧
      (∃ s : GState, Reach s ∧ s.stopThread = false ∧ s.opensOk = 0 ∧
        s.pc = .terminated ∧ s.openAttempts = 3 ∧
        s.statusHistory =
          [.connecting, .retrying 2, .retrying 1, .retrying 0, .failed] ∧
        s.sleeps = [2, 2, 2] ∧ s.status = .failed) := by
  constructor
  · intro s hs hstop hok
    have hno := reach_noOpenInv hs hstop hok
    refine ⟨noOpenInvAt_attempts_le hno, ?_, ?_⟩
    · intro hterm
      rw [hterm] at hno
      obtain ⟨hatt, hhist, hsl, hstat⟩ := hno
      exact ⟨hatt, by rw [hhist]; rfl, by rw [hsl]; rfl, hstat⟩
    · intro hfail t hstep
      have hterm := reach_failedInv hs hfail
      rw [step_from_terminated hterm hstep, stopReadingData_openAttempts]
  · exact ⟨failFinal, reach_failFinal, rfl, rfl, rfl, rfl, rfl, rfl, rfl⟩

/-- Witness for `retry_exhaustion` at the initial worker state. -/
theorem retry_exhaustion_witness : workerInit.openAttempts ≤ 3 :=
  (retry_exhaustion.1 workerInit Relation.ReflTransGen.refl rfl rfl).1

/-! ### User stop overwritten by the failure status (C5) -/

lemma reach_gStopFinal : Reach gStopFinal := by
  have t1 : Step gConn3 gStopped := Step.stopCall gConn3
  have t2 : Step gStopped { gStopped with pc := .runFinally 3 false } :=
    Step.innerStop gStopped 3 rfl rfl
  have t3 : Step { gStopped with pc := .runFinally 3 false }
      { gStopped with pc := .outerCheck 3 } :=
    Step.finallyStep { gStopped with pc := .runFinally 3 false } 3 false rfl
  have t4 : Step { gStopped with pc := .outerCheck 3 }
      { gStopped with pc := .epilog 3 } :=
    Step.outerExit { gStopped with pc := .outerCheck 3 } 3 rfl (Or.inr rfl)
  have t5 : Step { gStopped with pc := .epilog 3 } gStopFinal :=
    Step.epilogStep { gStopped with pc := .epilog 3 } 3 rfl
  exact ((((reach_gConn3.tail t1).tail t2).tail t3).tail t4).tail t5

/-- C5 is violated by the code: after a user `stop()` (status
"Disconnected", `retries` still 3), the worker's epilogue condition
`retries == 0 or STOP_THREAD` (line 138) is true, so the worker overwrites
the final status with "Failed to connect": the session reaches a
terminated state whose last shown status is Failed, not Disconnected. -/
theorem user_stop_overwritten_by_failed :
    ∃ s : GState, Reach s ∧ s.stopThread = true ∧ s.closeCount = 1 ∧
      s.pc = .terminated ∧
      s.statusHistory = [.connecting, .connected, .disconnected, .failed] ∧
      s.status = .failed ∧ s.status ≠ .disconnected :=
  ⟨gStopFinal, reach_gStopFinal, rfl, rfl, rfl, rfl, rfl, by decide⟩

/-! ### Connection resource vs. session state at statement granularity (C9) -/

lemma fEpilogResult_pc (s : FState) (r : ℕ) :
    (fEpilogResult s r).pc = .terminated := by
  by_cases h : r = 0 ∨ s.stopThread = true <;> simp [fEpilogResult, h]

lemma fEpilogResult_connRef (s : FState) (r : ℕ) :
    (fEpilogResult s r).connRef = s.connRef := by
  by_cases h : r = 0 ∨ s.stopThread = true <;> simp [fEpilogResult, h]

lemma fEpilogResult_status_cases (s : FState) (r : ℕ) :
    (fEpilogResult s r).status = .failed ∨
      (fEpilogResult s r).status = s.status := by
  by_cases h : r = 0 ∨ s.stopThread = true
  · left
    simp [fEpilogResult, h]
  · right
    simp [fEpilogResult, h]

lemma fInv_step {s t : FState} (h : FInv s) (hst : FStep s t) : FInv t := by
  obtain ⟨hA, hB, hC, hD⟩ := h
  cases hst with
  | outerContinue r hpc hr hstop =>
    refine ⟨fun _ => hA (by rw [hpc]; rfl), hB, ?_, ?_⟩
    · intro hf
      have h2 := hC (hf : s.status = .failed)
      rw [hpc] at h2
      exact (nomatch h2)
    · intro hcr _
      exact (nomatch ((hA (by rw [hpc]; rfl)).symm.trans hcr))
  | outerExit r hpc hor =>
    refine ⟨fun _ => hA (by rw [hpc]; rfl), hB, ?_, ?_⟩
    · intro hf
      have h2 := hC (hf : s.status = .failed)
      rw [hpc] at h2
      exact (nomatch h2)
    · intro hcr _
      exact (nomatch ((hA (by rw [hpc]; rfl)).symm.trans hcr))
  | openOk r hpc =>
    refine ⟨fun hx => (nomatch hx), hB, ?_, fun _ _ => rfl⟩
    intro hf
    have h2 := hC (hf : s.status = .failed)
    rw [hpc] at h2
    exact (nomatch h2)
  | openFail r hpc =>
    refine ⟨fun hx => (nomatch hx), fun hx => (nomatch hx),
      fun hf => (nomatch hf), ?_⟩
    intro hcr _
    exact (nomatch ((hA (by rw [hpc]; rfl)).symm.trans hcr))
  | connectedShown r hpc =>
    refine ⟨fun hx => (nomatch hx), fun hx => (nomatch hx),
      fun hf => (nomatch hf), ?_⟩
    intro hcr hw
    simp only [inCloseWindow, isFinallyMid, Bool.or_false] at hw
    refine hD hcr ?_
    simp only [inCloseWindow, hpc, isFinallyMid, Bool.or_false]
    exact hw
  | innerStop r hpc hstop =>
    refine ⟨fun hx => (nomatch hx), hB, ?_, ?_⟩
    · intro hf
      have h2 := hC (hf : s.status = .failed)
      rw [hpc] at h2
      exact (nomatch h2)
    · intro hcr hw
      simp only [inCloseWindow, isFinallyMid, Bool.or_false] at hw
      refine hD hcr ?_
      simp only [inCloseWindow, hpc, isFinallyMid, Bool.or_false]
      exact hw
  | innerCrash r hpc hstop hconn =>
    refine ⟨fun hx => (nomatch hx), hB, ?_, ?_⟩
    · intro hf
      have h2 := hC (hf : s.status = .failed)
      rw [hpc] at h2
      exact (nomatch h2)
    · intro hcr hw
      simp only [inCloseWindow, isFinallyMid, Bool.or_false] at hw
      refine hD hcr ?_
      simp only [inCloseWindow, hpc, isFinallyMid, Bool.or_false]
      exact hw
  | innerSerialErr r hpc hstop hconn =>
    refine ⟨fun hx => (nomatch hx), fun hx => (nomatch hx),
      fun hf => (nomatch hf), ?_⟩
    intro hcr hw
    simp only [inCloseWindow, isFinallyMid, Bool.or_false] at hw
    refine hD hcr ?_
    simp only [inCloseWindow, hpc, isFinallyMid, Bool.or_false]
    exact hw
  | finallyClose r c hpc hconn =>
    refine ⟨fun hx => (nomatch hx), hB, ?_, ?_⟩
    · intro hf
      have h2 := hC (hf : s.status = .failed)
      rw [hpc] at h2
      exact (nomatch h2)
    · intro _ hw
      simp [inCloseWindow, isFinallyMid] at hw
  | finallySkip r c hpc hconn =>
    refine ⟨fun _ => hconn, hB, ?_, ?_⟩
    · intro hf
      have h2 := hC (hf : s.status = .failed)
      rw [hpc] at h2
      exact (nomatch h2)
    · intro hcr _
      exact (nomatch (hconn.symm.trans hcr))
  | finallyNull r c hpc =>
    refine ⟨fun _ => rfl, hB, ?_, fun hcr _ => (nomatch hcr)⟩
    intro hf
    have h2 := hC (hf : s.status = .failed)
    rw [hpc] at h2
    exact (nomatch h2)
  | epilogStep r hpc =>
    refine ⟨?_, ?_, ?_, ?_⟩
    · intro _
      rw [fEpilogResult_connRef]
      exact hA (by rw [hpc]; rfl)
    · rcases fEpilogResult_status_cases s r with hsf | hss
      · rw [hsf]
        exact fun hx => (nomatch hx)
      · rw [hss]
        exact hB
    · intro _
      exact fEpilogResult_pc s r
    · intro hcr
      rw [fEpilogResult_connRef] at hcr
      exact (nomatch ((hA (by rw [hpc]; rfl)).symm.trans hcr))
  | stopBegin hsp =>
    refine ⟨hA, hB, hC, ?_⟩
    intro hcr hw
    simp only [inCloseWindow, isMidClose, Bool.false_or] at hw
    refine hD hcr ?_
    simp only [inCloseWindow, hsp, isMidClose, Bool.false_or]
    exact hw
  | stopClose hsp hconn =>
    refine ⟨hA, hB, hC, ?_⟩
    intro _ hw
    simp [inCloseWindow, isMidClose] at hw
  | stopSkip hsp hconn =>
    refine ⟨hA, hB, hC, ?_⟩
    intro hcr hw
    simp only [inCloseWindow, isMidClose, Bool.false_or] at hw
    refine hD hcr ?_
    simp only [inCloseWindow, hsp, isMidClose, Bool.false_or]
    exact hw
  | stopNull hsp =>
    exact ⟨fun _ => rfl, hB, hC, fun hcr _ => (nomatch hcr)⟩
  | stopShown hsp =>
    refine ⟨hA, fun hx => (nomatch hx), fun hf => (nomatch hf), ?_⟩
    intro hcr hw
    simp only [inCloseWindow, isMidClose, Bool.false_or] at hw
    refine hD hcr ?_
    simp only [inCloseWindow, hsp, isMidClose, Bool.false_or]
    exact hw

lemma freach_fInv {s : FState} (h : FReach s) : FInv s := by
  induction h with
  | refl =>
    exact ⟨fun _ => rfl, fun hx => (nomatch hx), fun hf => (nomatch hf),
      fun hcr _ => (nomatch hcr)⟩
  | tail hab hbc ih => exact fInv_step ih hbc

/-- The stop-racing-open interleaving: the user's stop completes (showing
"Disconnected") while the `serial.Serial` call of line 97 is still in
flight; line 97 then installs a non-null open handle. -/
lemma freach_fStopRaced : FReach fStopRaced := by
  have t1 : FStep fInit
      ⟨.openAttempt 3, .idle, false, false, false, .connecting⟩ :=
    FStep.outerContinue fInit 3 rfl (by decide) rfl
  have t2 : FStep ⟨.openAttempt 3, .idle, false, false, false, .connecting⟩
      ⟨.openAttempt 3, .afterFlag, true, false, false, .connecting⟩ :=
    FStep.stopBegin _ rfl
  have t3 : FStep ⟨.openAttempt 3, .afterFlag, true, false, false, .connecting⟩
      ⟨.openAttempt 3, .beforeStatus, true, false, false, .connecting⟩ :=
    FStep.stopSkip _ rfl rfl
  have t4 : FStep ⟨.openAttempt 3, .beforeStatus, true, false, false,
        .connecting⟩
      ⟨.openAttempt 3, .idle, true, false, false, .disconnected⟩ :=
    FStep.stopShown _ rfl
  have t5 : FStep ⟨.openAttempt 3, .idle, true, false, false, .disconnected⟩
      fStopRaced :=
    FStep.openOk _ 3 rfl
  exact ((((Relation.ReflTransGen.refl.tail t1).tail t2).tail t3).tail
    t4).tail t5

/-- The stop-close window: between lines 84 and 85 of `stop_reading_data`
the reference is non-null but the handle is already closed. -/
lemma freach_fConnMidClose : FReach fConnMidClose := by
  have t1 : FStep fInit
      ⟨.openAttempt 3, .idle, false, false, false, .connecting⟩ :=
    FStep.outerContinue fInit 3 rfl (by decide) rfl
  have t2 : FStep ⟨.openAttempt 3, .idle, false, false, false, .connecting⟩
      ⟨.postOpen 3, .idle, false, true, true, .connecting⟩ :=
    FStep.openOk _ 3 rfl
  have t3 : FStep ⟨.postOpen 3, .idle, false, true, true, .connecting⟩
      ⟨.innerCheck 3, .idle, false, true, true, .connected⟩ :=
    FStep.connectedShown _ 3 rfl
  have t4 : FStep ⟨.innerCheck 3, .idle, false, true, true, .connected⟩
      ⟨.innerCheck 3, .afterFlag, true, true, true, .connected⟩ :=
    FStep.stopBegin _ rfl
  have t5 : FStep ⟨.innerCheck 3, .afterFlag, true, true, true, .connected⟩
      fConnMidClose :=
    FStep.stopClose _ rfl rfl
  exact ((((Relation.ReflTransGen.refl.tail t1).tail t2).tail t3).tail
    t4).tail t5

/-- C9 counterexample: the claimed invariant fails on the source.  First, a
`stop()` completing while the open of line 97 is in flight leaves the
session status Disconnected when line 97 installs a non-null OPEN handle —
the reference is non-null while the state is Disconnected.  Second, between
`close()` (line 84) and `= None` (line 85) the reference is non-null while
the handle is already closed — "non-null corresponds exactly to an open
handle" also fails. -/
theorem conn_nonnull_invariant_cex :
    (∃ s : FState, FReach s ∧ s.connRef = true ∧ s.handleOpen = true ∧
        s.status = .disconnected) ∧
      (∃ s : FState, FReach s ∧ s.connRef = true ∧ s.handleOpen = false) :=
  ⟨⟨fStopRaced, freach_fStopRaced, rfl, rfl, rfl⟩,
    ⟨fConnMidClose, freach_fConnMidClose, rfl, rfl⟩⟩

/-- C9 amended: in every reachable fine-grained session state, whenever the
connection reference is non-null the status is never Idle ("Not Connected")
and never Failed, and outside the two close-then-null windows (stop's lines
84–85 and the finally's lines 134–135) the referenced handle is open.
A non-null reference while the status shows Disconnected IS reachable, via
a stop racing an in-flight open (see the counterexample). -/
theorem conn_nonnull_amended (s : FState) (h : FReach s)
    (hc : s.connRef = true) :
    (s.status ≠ .notConnected ∧ s.status ≠ .failed) ∧
      (inCloseWindow s = false → s.handleOpen = true) := by
  obtain ⟨hA, hB, hC, hD⟩ := freach_fInv h
  refine ⟨⟨hB, ?_⟩, hD hc⟩
  intro hf
  have h2 := hC hf
  have h3 := hA (by rw [h2]; rfl)
  exact (nomatch (h3.symm.trans hc))

/-- Witness for `conn_nonnull_amended` at a reachable state with a non-null
reference. -/
theorem conn_nonnull_amended_witness :
    fConnMidClose.connRef = true ∧ fConnMidClose.status ≠ .failed :=
  ⟨rfl,
    ((conn_nonnull_amended fConnMidClose freach_fConnMidClose rfl).1).2⟩

end SerialPlotter
